import Mathlib

/-!
Verification development for the atmospheric / cloud / shadow rendering core of
the three-geospatial repository.

The GLSL and TypeScript sources are shallowly embedded over the rationals:
GLSL floats become rationals, GLSL intrinsics with irrational values
(sqrt, exp, pow, the constant PI) become abstract function/constant fields of a
context structure, and texture samplers become abstract functions from texture
coordinates to texel values.  Control flow (branches, the raymarch loop with
its two break statements, the dirty-flag state machine of the cascaded shadow
maps) is translated literally.
-/

namespace Geo

/-- GLSL vec3 over rationals. -/
structure Vec3 where
  x : ℚ
  y : ℚ
  z : ℚ
  deriving DecidableEq, Repr

/-- GLSL vec4 over rationals. -/
structure Vec4 where
  x : ℚ
  y : ℚ
  z : ℚ
  w : ℚ
  deriving DecidableEq, Repr

instance : Add Vec3 := ⟨fun a b => ⟨a.x + b.x, a.y + b.y, a.z + b.z⟩⟩

instance : Mul Vec3 := ⟨fun a b => ⟨a.x * b.x, a.y * b.y, a.z * b.z⟩⟩

instance : Div Vec3 := ⟨fun a b => ⟨a.x / b.x, a.y / b.y, a.z / b.z⟩⟩

/-- GLSL vec3(a): splat a scalar into all components. -/
def v3 (a : ℚ) : Vec3 := ⟨a, a, a⟩

/-- Scalar times vec3. -/
def smul3 (c : ℚ) (v : Vec3) : Vec3 := ⟨c * v.x, c * v.y, c * v.z⟩

/-- GLSL dot product on vec3. -/
def dot3 (a b : Vec3) : ℚ := a.x * b.x + a.y * b.y + a.z * b.z

/-- GLSL min on vec3, component-wise. -/
def min3 (a b : Vec3) : Vec3 := ⟨min a.x b.x, min a.y b.y, min a.z b.z⟩

/-- The rgb swizzle of a vec4. -/
def Vec4.xyz (v : Vec4) : Vec3 := ⟨v.x, v.y, v.z⟩

instance : Add Vec4 := ⟨fun a b => ⟨a.x + b.x, a.y + b.y, a.z + b.z, a.w + b.w⟩⟩

/-- Scalar times vec4. -/
def smul4 (c : ℚ) (v : Vec4) : Vec4 := ⟨c * v.x, c * v.y, c * v.z, c * v.w⟩

/-- GLSL any(greaterThan(v, vec4(c))). -/
def anyGT4 (v : Vec4) (c : ℚ) : Bool :=
  decide (v.x > c) || decide (v.y > c) || decide (v.z > c) || decide (v.w > c)

/-!
Atmosphere context: uniforms, texture-size constants and texture samplers of
packages/atmosphere/src/shaders/functions.glsl.  The fields sqrtF, powThreeHalves
and piApprox stand for the GLSL sqrt and pow(x, 1.5) intrinsics and the PI
constant, which have no exact rational realization; the texture samplers are
abstract functions from texture coordinates to texel values.
-/

/-- Uniforms and samplers of the atmosphere shader. -/
structure AtmosphereCtx where
  bottom_radius : ℚ
  top_radius : ℚ
  mu_s_min : ℚ
  sun_angular_radius : ℚ
  solar_irradiance : Vec3
  rayleigh_scattering : Vec3
  mie_scattering : Vec3
  mie_phase_function_g : ℚ
  max_rayleigh_shadow_length : ℚ
  piApprox : ℚ
  transmittanceW : ℕ
  transmittanceH : ℕ
  muSize : ℕ
  muSSize : ℕ
  nuSize : ℕ
  rSize : ℕ
  sqrtF : ℚ → ℚ
  powThreeHalves : ℚ → ℚ
  transmittance_texture : ℚ → ℚ → Vec3
  scattering_texture : ℚ → ℚ → ℚ → Vec4

/-- functions.glsl ClampCosine: clamp(mu, -1.0, 1.0). -/
def ClampCosine (mu : ℚ) : ℚ := max (-1) (min mu 1)

/-- functions.glsl ClampDistance: max(d, 0.0). -/
def ClampDistance (d : ℚ) : ℚ := max d 0

/-- functions.glsl ClampRadius: clamp(r, u_bottom_radius, u_top_radius). -/
def ClampRadius (A : AtmosphereCtx) (r : ℚ) : ℚ :=
  max A.bottom_radius (min r A.top_radius)

/-- functions.glsl SafeSqrt: sqrt(max(a, 0.0)). -/
def SafeSqrt (A : AtmosphereCtx) (a : ℚ) : ℚ := A.sqrtF (max a 0)

/-- functions.glsl DistanceToTopAtmosphereBoundary. -/
def DistanceToTopAtmosphereBoundary (A : AtmosphereCtx) (r mu : ℚ) : ℚ :=
  ClampDistance (-(r * mu) + SafeSqrt A (r * r * (mu * mu - 1) + A.top_radius * A.top_radius))

/-- functions.glsl RayIntersectsGround. -/
def RayIntersectsGround (A : AtmosphereCtx) (r mu : ℚ) : Bool :=
  decide (mu < 0) &&
    decide (r * r * (mu * mu - 1) + A.bottom_radius * A.bottom_radius ≥ 0)

/-- functions.glsl GetTextureCoordFromUnitRange: 0.5/size + x*(1 - 1/size). -/
def GetTextureCoordFromUnitRange (x : ℚ) (texture_size : ℕ) : ℚ :=
  1 / 2 / (texture_size : ℚ) + x * (1 - 1 / (texture_size : ℚ))

/-- functions.glsl GetTransmittanceTextureUvFromRMu. -/
def GetTransmittanceTextureUvFromRMu (A : AtmosphereCtx) (r mu : ℚ) : ℚ × ℚ :=
  let H := A.sqrtF (A.top_radius * A.top_radius - A.bottom_radius * A.bottom_radius)
  let rho := SafeSqrt A (r * r - A.bottom_radius * A.bottom_radius)
  let d := DistanceToTopAtmosphereBoundary A r mu
  let d_min := A.top_radius - r
  let d_max := rho + H
  let x_mu := (d - d_min) / (d_max - d_min)
  let x_r := rho / H
  (GetTextureCoordFromUnitRange x_mu A.transmittanceW,
    GetTextureCoordFromUnitRange x_r A.transmittanceH)

/-- functions.glsl GetTransmittanceToTopAtmosphereBoundary. -/
def GetTransmittanceToTopAtmosphereBoundary (A : AtmosphereCtx) (r mu : ℚ) : Vec3 :=
  let uv := GetTransmittanceTextureUvFromRMu A r mu
  A.transmittance_texture uv.1 uv.2

/-- functions.glsl GetTransmittance: ratio of two to-boundary lookups, min with 1. -/
def GetTransmittance (A : AtmosphereCtx) (r mu d : ℚ)
    (ray_r_mu_intersects_ground : Bool) : Vec3 :=
  let r_d := ClampRadius A (A.sqrtF (d * d + 2 * r * mu * d + r * r))
  let mu_d := ClampCosine ((r * mu + d) / r_d)
  if ray_r_mu_intersects_ground then
    min3
      (GetTransmittanceToTopAtmosphereBoundary A r_d (-mu_d) /
        GetTransmittanceToTopAtmosphereBoundary A r (-mu))
      (v3 1)
  else
    min3
      (GetTransmittanceToTopAtmosphereBoundary A r mu /
        GetTransmittanceToTopAtmosphereBoundary A r_d mu_d)
      (v3 1)

/-- functions.glsl RayleighPhaseFunction. -/
def RayleighPhaseFunction (A : AtmosphereCtx) (nu : ℚ) : ℚ :=
  3 / (16 * A.piApprox) * (1 + nu * nu)

/-- functions.glsl MiePhaseFunction, with pow(x, 1.5) abstract. -/
def MiePhaseFunction (A : AtmosphereCtx) (g nu : ℚ) : ℚ :=
  3 / (8 * A.piApprox) * (1 - g * g) / (2 + g * g) * (1 + nu * nu) /
    A.powThreeHalves (1 + g * g - 2 * g * nu)

/-- functions.glsl GetScatteringTextureUvwzFromRMuMuSNu, including the
ground-branch degenerate-division guard (d_max == d_min yields unit-range 0). -/
def GetScatteringTextureUvwzFromRMuMuSNu (A : AtmosphereCtx)
    (r mu mu_s nu : ℚ) (ray_r_mu_intersects_ground : Bool) : Vec4 :=
  let H := A.sqrtF (A.top_radius * A.top_radius - A.bottom_radius * A.bottom_radius)
  let rho := SafeSqrt A (r * r - A.bottom_radius * A.bottom_radius)
  let u_r := GetTextureCoordFromUnitRange (rho / H) A.rSize
  let r_mu := r * mu
  let discriminant := r_mu * r_mu - r * r + A.bottom_radius * A.bottom_radius
  let u_mu :=
    if ray_r_mu_intersects_ground then
      let d := -r_mu - SafeSqrt A discriminant
      let d_min := r - A.bottom_radius
      let d_max := rho
      1 / 2 -
        1 / 2 *
          GetTextureCoordFromUnitRange
            (if d_max = d_min then 0 else (d - d_min) / (d_max - d_min))
            (A.muSize / 2)
    else
      let d := -r_mu + SafeSqrt A (discriminant + H * H)
      let d_min := A.top_radius - r
      let d_max := rho + H
      1 / 2 + 1 / 2 * GetTextureCoordFromUnitRange ((d - d_min) / (d_max - d_min)) (A.muSize / 2)
  let d := DistanceToTopAtmosphereBoundary A A.bottom_radius mu_s
  let d_min := A.top_radius - A.bottom_radius
  let d_max := H
  let a := (d - d_min) / (d_max - d_min)
  let D := DistanceToTopAtmosphereBoundary A A.bottom_radius A.mu_s_min
  let A2 := (D - d_min) / (d_max - d_min)
  let u_mu_s := GetTextureCoordFromUnitRange (max (1 - a / A2) 0 / (1 + a)) A.muSSize
  let u_nu := (nu + 1) / 2
  ⟨u_nu, u_mu_s, u_mu, u_r⟩

/-- functions.glsl GetExtrapolatedSingleMieScattering with its 1e-5 floor. -/
def GetExtrapolatedSingleMieScattering (A : AtmosphereCtx) (scattering : Vec4) : Vec3 :=
  if scattering.x < 1 / 100000 then v3 0
  else
    scattering.xyz * v3 scattering.w / v3 scattering.x *
      v3 (A.rayleigh_scattering.x / A.mie_scattering.x) *
      (A.mie_scattering / A.rayleigh_scattering)

/-- functions.glsl GetCombinedScattering: nu-axis bilinear interpolation over the
packed 3D scattering texture; returns (scattering, single_mie_scattering). -/
def GetCombinedScattering (A : AtmosphereCtx) (r mu mu_s nu : ℚ)
    (ray_r_mu_intersects_ground : Bool) : Vec3 × Vec3 :=
  let uvwz := GetScatteringTextureUvwzFromRMuMuSNu A r mu mu_s nu ray_r_mu_intersects_ground
  let tex_coord_x := uvwz.x * ((A.nuSize : ℚ) - 1)
  let tex_x := ((Int.floor tex_coord_x : ℤ) : ℚ)
  let lerp := tex_coord_x - tex_x
  let u0 := (tex_x + uvwz.y) / (A.nuSize : ℚ)
  let u1 := (tex_x + 1 + uvwz.y) / (A.nuSize : ℚ)
  let combined_scattering :=
    smul4 (1 - lerp) (A.scattering_texture u0 uvwz.z uvwz.w) +
      smul4 lerp (A.scattering_texture u1 uvwz.z uvwz.w)
  (combined_scattering.xyz, GetExtrapolatedSingleMieScattering A combined_scattering)

/-- GLSL length() of a vec3, with sqrt abstract. -/
def vecLength (A : AtmosphereCtx) (v : Vec3) : ℚ := A.sqrtF (dot3 v v)

/-- Common tail of functions.glsl GetSkyRadiance after the top-boundary branch:
takes the (possibly advanced) camera and the updated r and rmu, and returns
(radiance, transmittance). -/
def GetSkyRadianceBody (A : AtmosphereCtx) (camera view_ray : Vec3)
    (shadow_length : ℚ) (sun_direction : Vec3) (r rmu : ℚ) : Vec3 × Vec3 :=
  let mu := rmu / r
  let mu_s := dot3 camera sun_direction / r
  let nu := dot3 view_ray sun_direction
  let ig := RayIntersectsGround A r mu
  let transmittance :=
    if ig then v3 0 else GetTransmittanceToTopAtmosphereBoundary A r mu
  let pair :=
    if shadow_length = 0 then
      GetCombinedScattering A r mu mu_s nu ig
    else
      let rayleigh_shadow_length := min shadow_length A.max_rayleigh_shadow_length
      let d := rayleigh_shadow_length
      let r_p := ClampRadius A (A.sqrtF (d * d + 2 * r * mu * d + r * r))
      let mu_p := (r * mu + d) / r_p
      let mu_s_p := (r * mu_s + d * nu) / r_p
      let first := GetCombinedScattering A r_p mu_p mu_s_p nu ig
      let rayleigh_transmittance := GetTransmittance A r mu rayleigh_shadow_length ig
      let d2 := shadow_length
      let r_p2 := ClampRadius A (A.sqrtF (d2 * d2 + 2 * r * mu * d2 + r * r))
      let mu_p2 := (r * mu + d2) / r_p2
      let mu_s_p2 := (r * mu_s + d2 * nu) / r_p2
      let second := GetCombinedScattering A r_p2 mu_p2 mu_s_p2 nu ig
      let mie_transmittance := GetTransmittance A r mu shadow_length ig
      (first.1 * rayleigh_transmittance, second.2 * mie_transmittance)
  (pair.1 * v3 (RayleighPhaseFunction A nu) +
      pair.2 * v3 (MiePhaseFunction A A.mie_phase_function_g nu),
    transmittance)

/-- functions.glsl GetSkyRadiance: above-atmosphere handling (advance the camera
to the top boundary, or return zero radiance and unit transmittance on a miss),
then the common body.  Returns (radiance, transmittance). -/
def GetSkyRadiance (A : AtmosphereCtx) (camera view_ray : Vec3)
    (shadow_length : ℚ) (sun_direction : Vec3) : Vec3 × Vec3 :=
  let r := vecLength A camera
  let rmu := dot3 camera view_ray
  let distance_to_top_atmosphere_boundary :=
    -rmu - SafeSqrt A (rmu * rmu - r * r + A.top_radius * A.top_radius)
  if distance_to_top_atmosphere_boundary > 0 then
    GetSkyRadianceBody A (camera + smul3 distance_to_top_atmosphere_boundary view_ray)
      view_ray shadow_length sun_direction A.top_radius
      (rmu + distance_to_top_atmosphere_boundary)
  else if r > A.top_radius then (v3 0, v3 1)
  else GetSkyRadianceBody A camera view_ray shadow_length sun_direction r rmu

/-!
Cloud raymarcher (shaders/clouds/shadow.frag, function marchToClouds).

The weather and shape samplers (sampleWeather, sampleShape from the clouds
include) and the scene-occlusion test intersectsSceneObjects depend only on the
sample position rayOrigin + rayDistance * rayDirection; for a fixed origin,
direction and mip level they are modelled as abstract functions of the ray
distance.  The GLSL exp intrinsic is modelled by the abstract field expF.
-/

/-- Uniforms and abstract samplers of the cloud shadow raymarcher. -/
structure CloudsCtx where
  maxIterations : ℕ
  minDensity : ℚ
  minTransmittance : ℚ
  weatherDensity : ℚ → Vec4
  occluded : ℚ → Bool
  shape : ℚ → ℚ
  expF : ℚ → ℚ

/-- Mutable locals of the marchToClouds loop. -/
structure MarchState where
  rayDistance : ℚ
  extinctionSum : ℚ
  maxOpticalDepth : ℚ
  transmittanceIntegral : ℚ
  frontDepth : ℚ
  sampleCount : ℕ
  deriving DecidableEq, Repr

/-- Initial march state: accumulators zero, transmittance one, at the given
(already jitter-offset) ray distance. -/
def marchInit (rayDistance : ℚ) : MarchState :=
  { rayDistance := rayDistance
    extinctionSum := 0
    maxOpticalDepth := 0
    transmittanceIntegral := 1
    frontDepth := 0
    sampleCount := 0 }

/-- One iteration of the marchToClouds loop body without the break tests and
without the ray-distance advance: the weather test, the occlusion test, the
shape sampling and the conditional accumulation (density scaled by 5). -/
def marchBody (C : CloudsCtx) (stepSize : ℚ) (s : MarchState) : MarchState :=
  if anyGT4 (C.weatherDensity s.rayDistance) C.minDensity && !C.occluded s.rayDistance then
    let density := C.shape s.rayDistance
    if density > C.minDensity then
      let density5 := density * 5
      { s with
        frontDepth := max s.frontDepth s.rayDistance
        extinctionSum := s.extinctionSum + density5
        maxOpticalDepth := s.maxOpticalDepth + density5 * stepSize
        transmittanceIntegral := s.transmittanceIntegral * C.expF (-(density5 * stepSize))
        sampleCount := s.sampleCount + 1 }
    else s
  else s

/-- Whether the loop body accumulates a sample at ray distance t. -/
def accumulates (C : CloudsCtx) (t : ℚ) : Bool :=
  anyGT4 (C.weatherDensity t) C.minDensity && !C.occluded t && decide (C.shape t > C.minDensity)

/-- The marchToClouds loop, fuel-indexed by the remaining iteration count.
Returns the final state together with the number of loop-body entries:
the loop breaks before sampling once the ray distance exceeds maxRayDistance,
and breaks after sampling once the transmittance integral drops to or below
minTransmittance. -/
def marchLoop (C : CloudsCtx) (stepSize maxRayDistance : ℚ) :
    ℕ → MarchState → MarchState × ℕ
  | 0, s => (s, 0)
  | n + 1, s =>
    if s.rayDistance > maxRayDistance then (s, 1)
    else
      let s2 := marchBody C stepSize s
      if s2.transmittanceIntegral ≤ C.minTransmittance then (s2, 1)
      else
        let rest :=
          marchLoop C stepSize maxRayDistance n { s2 with rayDistance := s2.rayDistance + stepSize }
        (rest.1, rest.2 + 1)

/-- The ray distances at which the marchToClouds loop accumulates a sample, in
order; mirrors the recursion of marchLoop exactly. -/
def marchLoopDists (C : CloudsCtx) (stepSize maxRayDistance : ℚ) :
    ℕ → MarchState → List ℚ
  | 0, _ => []
  | n + 1, s =>
    if s.rayDistance > maxRayDistance then []
    else
      let here := if accumulates C s.rayDistance then [s.rayDistance] else []
      let s2 := marchBody C stepSize s
      if s2.transmittanceIntegral ≤ C.minTransmittance then here
      else
        here ++
          marchLoopDists C stepSize maxRayDistance n
            { s2 with rayDistance := s2.rayDistance + stepSize }

/-- shadow.frag marchToClouds: jitter the start distance back by
stepSize * jitter, run the loop for at most maxIterations iterations, and pack
the result: (maxRayDistance, 0, 0, 0) when no sample contributed, else
(frontDepth, extinctionSum / sampleCount, maxOpticalDepth, 1).  The initial
rayDistance and the stepSize are the outputs of intersectStructuredPlanes. -/
def marchToClouds (C : CloudsCtx) (rayDistance stepSize maxRayDistance jitter : ℚ) : Vec4 :=
  let s :=
    (marchLoop C stepSize maxRayDistance C.maxIterations
        (marchInit (rayDistance - stepSize * jitter))).1
  if s.sampleCount = 0 then ⟨maxRayDistance, 0, 0, 0⟩
  else ⟨s.frontDepth, s.extinctionSum / (s.sampleCount : ℚ), s.maxOpticalDepth, 1⟩

/-- Final loop state of a marchToClouds invocation. -/
def marchFinal (C : CloudsCtx) (rayDistance stepSize maxRayDistance jitter : ℚ) : MarchState :=
  (marchLoop C stepSize maxRayDistance C.maxIterations
      (marchInit (rayDistance - stepSize * jitter))).1

/-- Number of loop-body entries of a marchToClouds invocation. -/
def marchIters (C : CloudsCtx) (rayDistance stepSize maxRayDistance jitter : ℚ) : ℕ :=
  (marchLoop C stepSize maxRayDistance C.maxIterations
      (marchInit (rayDistance - stepSize * jitter))).2

/-- Accumulated-sample ray distances of a marchToClouds invocation. -/
def marchDists (C : CloudsCtx) (rayDistance stepSize maxRayDistance jitter : ℚ) : List ℚ :=
  marchLoopDists C stepSize maxRayDistance C.maxIterations
    (marchInit (rayDistance - stepSize * jitter))

/-- One unconditional loop iteration: the body followed by the ray-distance
advance, ignoring the break tests. -/
def advanceFull (C : CloudsCtx) (stepSize : ℚ) (s : MarchState) : MarchState :=
  let s2 := marchBody C stepSize s
  { s2 with rayDistance := s2.rayDistance + stepSize }

/-!
Cascaded shadow maps (libs/csm/src/CascadedShadowMaps.ts).

The observable state of a CascadedShadowMaps instance is modelled as a record.
The fields mode, lambda, margin and far are plain public class fields, so
assigning them is a plain record update; cascadeCount and mapSize are accessor
properties whose setters are translated from the source.  Frusta recomputation
(updateFrusta, whose helpers splitFrustum and FrustumCorners live outside the
embedded sources) is modelled by a version counter that updateFrusta increments,
and shadow-map disposal by a dispose counter, so that both effects are
observable in the state.
-/

/-- CSM frustum split mode. -/
inductive SplitMode where
  | uniformSplit
  | logarithmicSplit
  | practicalSplit
  deriving DecidableEq, Repr

/-- Shadow allocation state of one cascaded light: its shadow map size and
whether shadow.map is currently allocated (non-null). -/
structure ShadowState where
  mapSizeW : ℕ
  mapSizeH : ℕ
  hasMap : Bool
  deriving DecidableEq, Repr

instance : Inhabited ShadowState := ⟨⟨0, 0, false⟩⟩

/-- Observable state of a CascadedShadowMaps instance. -/
structure CSMState where
  mode : SplitMode
  lambda : ℚ
  margin : ℚ
  far : ℚ
  needsUpdateFrusta : Bool
  lights : List ShadowState
  disposeCount : ℕ
  frustaVersion : ℕ
  deriving DecidableEq, Repr

/-- The cascadeCount getter: this.directionalLight.cascadedLights.length. -/
def cascadeCount (s : CSMState) : ℕ := s.lights.length

/-- The mapSize getter: this.directionalLight.mainLight.shadow.mapSize.width,
with the main light modelled as the first cascaded light. -/
def mapSize (s : CSMState) : ℕ := s.lights.headI.mapSizeW

/-- Plain field assignment this.mode = value (no setter in the source). -/
def setMode (v : SplitMode) (s : CSMState) : CSMState := { s with mode := v }

/-- Plain field assignment this.lambda = value (no setter in the source). -/
def setLambda (v : ℚ) (s : CSMState) : CSMState := { s with lambda := v }

/-- Plain field assignment this.margin = value (no setter in the source). -/
def setMargin (v : ℚ) (s : CSMState) : CSMState := { s with margin := v }

/-- Plain field assignment this.far = value (no setter in the source). -/
def setFar (v : ℚ) (s : CSMState) : CSMState := { s with far := v }

/-- Modelled from the spec: CascadedDirectionalLight.setCount, whose source is
not among the embedded files.  Changing the cascade count must release prior
shadow-map allocations before or during reassignment and resize the cascaded
light list; released maps are counted by the caller via countP hasMap. -/
def setCount (v : ℕ) (sz : ℕ) : List ShadowState :=
  List.replicate v { mapSizeW := sz, mapSizeH := sz, hasMap := false }

/-- The cascadeCount setter: when the value differs, resize the cascaded lights
(via setCount) and set needsUpdateFrusta. -/
def setCascadeCount (v : ℕ) (s : CSMState) : CSMState :=
  if v ≠ cascadeCount s then
    { s with
      lights := setCount v (mapSize s)
      disposeCount := s.disposeCount + s.lights.countP (fun l => l.hasMap)
      needsUpdateFrusta := true }
  else s

/-- The mapSize setter: when the value differs, write the new size into every
cascaded light's shadow map size and dispose-and-null any allocated map.  The
source setter does not touch needsUpdateFrusta. -/
def setMapSize (v : ℕ) (s : CSMState) : CSMState :=
  if v ≠ mapSize s then
    { s with
      lights := s.lights.map (fun l => { l with mapSizeW := v, mapSizeH := v, hasMap := false })
      disposeCount := s.disposeCount + s.lights.countP (fun l => l.hasMap) }
  else s

/-- updateFrusta (updateCascades, updateShadowBounds, material update), whose
frustum arithmetic lives outside the embedded sources; its execution is
recorded by bumping the frusta version. -/
def updateFrusta (s : CSMState) : CSMState := { s with frustaVersion := s.frustaVersion + 1 }

/-- update(): run updateFrusta and clear the flag exactly when needsUpdateFrusta
is set (the per-light repositioning that follows is modelled separately by
lightPlacement). -/
def update (s : CSMState) : CSMState :=
  if s.needsUpdateFrusta then { updateFrusta s with needsUpdateFrusta := false } else s

/-- Texel snapping of the light-space bounding-box center inside update():
center.x and center.y are rounded to integer multiples of the per-cascade texel
sizes (right - left) / mapSize and (top - bottom) / mapSize; center.z is kept. -/
def snapToTexel (left right top bottom mapSizePx : ℚ) (center : Vec3) : Vec3 :=
  let texelWidth := (right - left) / mapSizePx
  let texelHeight := (top - bottom) / mapSizePx
  ⟨((round (center.x / texelWidth) : ℤ) : ℚ) * texelWidth,
    ((round (center.y / texelHeight) : ℤ) : ℚ) * texelHeight,
    center.z⟩

/-- Tail of the per-cascade loop of update(): snap the light-space center, map
it back to world space through the light orientation matrix (modelled as an
abstract point transform), and derive the light position and target position
(position plus the light direction). -/
def lightPlacement (applyLightMatrix : Vec3 → Vec3) (lightDirection : Vec3)
    (left right top bottom mapSizePx : ℚ) (center : Vec3) : Vec3 × Vec3 :=
  let world := applyLightMatrix (snapToTexel left right top bottom mapSizePx center)
  (world, world + lightDirection)

/-!
Component lemmas for the vector operations.
-/

@[simp] theorem vec3_div_x (a b : Vec3) : (a / b).x = a.x / b.x := rfl

@[simp] theorem vec3_div_y (a b : Vec3) : (a / b).y = a.y / b.y := rfl

@[simp] theorem vec3_div_z (a b : Vec3) : (a / b).z = a.z / b.z := rfl

@[simp] theorem min3_x (a b : Vec3) : (min3 a b).x = min a.x b.x := rfl

@[simp] theorem min3_y (a b : Vec3) : (min3 a b).y = min a.y b.y := rfl

@[simp] theorem min3_z (a b : Vec3) : (min3 a b).z = min a.z b.z := rfl

@[simp] theorem v3_x (a : ℚ) : (v3 a).x = a := rfl

@[simp] theorem v3_y (a : ℚ) : (v3 a).y = a := rfl

@[simp] theorem v3_z (a : ℚ) : (v3 a).z = a := rfl

/-- Bounds of the clamped transmittance ratio pattern min3 (a / b) (v3 1) for
component-wise non-negative numerator and denominator. -/
theorem min3_ratio_bounds (a b : Vec3)
    (ha : 0 ≤ a.x ∧ 0 ≤ a.y ∧ 0 ≤ a.z) (hb : 0 ≤ b.x ∧ 0 ≤ b.y ∧ 0 ≤ b.z) :
    (0 ≤ (min3 (a / b) (v3 1)).x ∧ (min3 (a / b) (v3 1)).x ≤ 1) ∧
      (0 ≤ (min3 (a / b) (v3 1)).y ∧ (min3 (a / b) (v3 1)).y ≤ 1) ∧
      (0 ≤ (min3 (a / b) (v3 1)).z ∧ (min3 (a / b) (v3 1)).z ≤ 1) := by
  refine ⟨⟨?_, ?_⟩, ⟨?_, ?_⟩, ⟨?_, ?_⟩⟩ <;> simp only [min3_x, min3_y, min3_z, vec3_div_x,
    vec3_div_y, vec3_div_z, v3_x, v3_y, v3_z]
  · exact le_min (div_nonneg ha.1 hb.1) zero_le_one
  · exact min_le_right _ _
  · exact le_min (div_nonneg ha.2.1 hb.2.1) zero_le_one
  · exact min_le_right _ _
  · exact le_min (div_nonneg ha.2.2 hb.2.2) zero_le_one
  · exact min_le_right _ _

/-- C2: in the ground-intersecting branch of GetScatteringTextureUvwzFromRMuMuSNu
with d_max = d_min (that is, rho = r - bottom_radius), the degenerate division is
guarded: the u_mu output coordinate equals the value obtained with unit-range
input 0.  In this rational embedding the guard is exactly what keeps the
expression total (no NaN/Inf): the (d - d_min) / (d_max - d_min) division with a
zero denominator is never taken. -/
theorem c2_scattering_uvwz_degenerate_guard (A : AtmosphereCtx) (r mu mu_s nu : ℚ)
    (h : SafeSqrt A (r * r - A.bottom_radius * A.bottom_radius) = r - A.bottom_radius) :
    (GetScatteringTextureUvwzFromRMuMuSNu A r mu mu_s nu true).z =
      1 / 2 - 1 / 2 * GetTextureCoordFromUnitRange 0 (A.muSize / 2) := by
  simp only [GetScatteringTextureUvwzFromRMuMuSNu, h, if_true, if_pos rfl]

/-- Atmosphere context used to instantiate C2 at a concrete input. -/
def atmoC2 : AtmosphereCtx :=
  { bottom_radius := 1
    top_radius := 2
    mu_s_min := -1 / 5
    sun_angular_radius := 1 / 100
    solar_irradiance := ⟨1, 1, 1⟩
    rayleigh_scattering := ⟨1, 1, 1⟩
    mie_scattering := ⟨1, 1, 1⟩
    mie_phase_function_g := 4 / 5
    max_rayleigh_shadow_length := 1000
    piApprox := 355 / 113
    transmittanceW := 256
    transmittanceH := 64
    muSize := 128
    muSSize := 32
    nuSize := 8
    rSize := 32
    sqrtF := fun _ => 0
    powThreeHalves := fun x => x
    transmittance_texture := fun _ _ => ⟨1, 1, 1⟩
    scattering_texture := fun _ _ _ => ⟨0, 0, 0, 0⟩ }

/-- Witness for C2: at r = bottom_radius the ground-branch distance range is
degenerate and the guard fires. -/
theorem c2_witness :
    SafeSqrt atmoC2 (1 * 1 - atmoC2.bottom_radius * atmoC2.bottom_radius) =
        1 - atmoC2.bottom_radius ∧
      (GetScatteringTextureUvwzFromRMuMuSNu atmoC2 1 (-1 / 2) (1 / 2) 0 true).z =
        1 / 2 - 1 / 2 * GetTextureCoordFromUnitRange 0 (atmoC2.muSize / 2) :=
  ⟨by norm_num [SafeSqrt, atmoC2],
    c2_scattering_uvwz_degenerate_guard atmoC2 1 (-1 / 2) (1 / 2) 0
      (by norm_num [SafeSqrt, atmoC2])⟩

/-- C3: GetTransmittance is the component-wise ratio of two to-boundary
transmittance lookups clamped by min with 1; assuming the transmittance texture
is component-wise non-negative, every returned channel lies in [0, 1]. -/
theorem c3_transmittance_ratio_clamped (A : AtmosphereCtx) (r mu d : ℚ) (ig : Bool)
    (hT : ∀ u v : ℚ,
      0 ≤ (A.transmittance_texture u v).x ∧
        0 ≤ (A.transmittance_texture u v).y ∧ 0 ≤ (A.transmittance_texture u v).z) :
    (0 ≤ (GetTransmittance A r mu d ig).x ∧ (GetTransmittance A r mu d ig).x ≤ 1) ∧
      (0 ≤ (GetTransmittance A r mu d ig).y ∧ (GetTransmittance A r mu d ig).y ≤ 1) ∧
      (0 ≤ (GetTransmittance A r mu d ig).z ∧ (GetTransmittance A r mu d ig).z ≤ 1) := by
  unfold GetTransmittance GetTransmittanceToTopAtmosphereBoundary
  split
  · exact min3_ratio_bounds _ _ (hT _ _) (hT _ _)
  · exact min3_ratio_bounds _ _ (hT _ _) (hT _ _)

/-- Atmosphere context used to instantiate C3 at a concrete input. -/
def atmoC3 : AtmosphereCtx :=
  { atmoC2 with transmittance_texture := fun u v => ⟨u * u, v * v, 1 / 2⟩ }

/-- Witness for C3 at a concrete input with a non-negative texture. -/
theorem c3_witness :
    (0 ≤ (GetTransmittance atmoC3 (3 / 2) (1 / 4) 5 false).x ∧
        (GetTransmittance atmoC3 (3 / 2) (1 / 4) 5 false).x ≤ 1) ∧
      (0 ≤ (GetTransmittance atmoC3 (3 / 2) (1 / 4) 5 false).y ∧
          (GetTransmittance atmoC3 (3 / 2) (1 / 4) 5 false).y ≤ 1) ∧
      (0 ≤ (GetTransmittance atmoC3 (3 / 2) (1 / 4) 5 false).z ∧
          (GetTransmittance atmoC3 (3 / 2) (1 / 4) 5 false).z ≤ 1) := by
  apply c3_transmittance_ratio_clamped
  intro u v
  simp only [atmoC3]
  exact ⟨mul_self_nonneg u, mul_self_nonneg v, by norm_num⟩

/-- C8: GetExtrapolatedSingleMieScattering returns the zero vector whenever the
packed red channel is below the 1e-5 floor, and otherwise the divisor is at
least 1e-5 (so nonzero) and the result is exactly the ratio-trick extrapolation. -/
theorem c8_extrapolated_mie_floor (A : AtmosphereCtx) (s : Vec4) :
    (s.x < 1 / 100000 → GetExtrapolatedSingleMieScattering A s = v3 0) ∧
      (1 / 100000 ≤ s.x →
        s.x ≠ 0 ∧
          GetExtrapolatedSingleMieScattering A s =
            s.xyz * v3 s.w / v3 s.x * v3 (A.rayleigh_scattering.x / A.mie_scattering.x) *
              (A.mie_scattering / A.rayleigh_scattering)) := by
  constructor
  · intro h
    simp only [GetExtrapolatedSingleMieScattering, if_pos h]
  · intro h
    refine ⟨ne_of_gt (lt_of_lt_of_le (by norm_num) h), ?_⟩
    simp only [GetExtrapolatedSingleMieScattering, if_neg (not_lt.mpr h)]

/-- Witness for C8: both sides of the floor at concrete packed samples. -/
theorem c8_witness :
    GetExtrapolatedSingleMieScattering atmoC2 ⟨1 / 200000, 1, 1, 1⟩ = v3 0 ∧
      ((1 : ℚ) / 100000 ≤ (⟨1 / 2, 1, 1, 1⟩ : Vec4).x ∧
        (⟨1 / 2, 1, 1, 1⟩ : Vec4).x ≠ 0) :=
  ⟨(c8_extrapolated_mie_floor atmoC2 ⟨1 / 200000, 1, 1, 1⟩).1 (by norm_num),
    by norm_num, ((c8_extrapolated_mie_floor atmoC2 ⟨1 / 2, 1, 1, 1⟩).2 (by norm_num)).1⟩

/-- Distance along the view ray from the camera to the top atmosphere boundary
as computed at the head of GetSkyRadiance (negative or zero when the ray misses
the boundary from outside). -/
def skyDistanceToTop (A : AtmosphereCtx) (camera view_ray : Vec3) : ℚ :=
  let r := vecLength A camera
  let rmu := dot3 camera view_ray
  let d := -rmu - SafeSqrt A (rmu * rmu - r * r + A.top_radius * A.top_radius)
  d

/-- C7: for a camera above the top atmosphere radius, GetSkyRadiance returns
zero radiance and unit transmittance when the view ray misses the top boundary
(non-positive boundary distance), and otherwise first advances the camera to
the boundary intersection (camera + d * view_ray, with r set to top_radius and
rmu advanced by d) before evaluating the common scattering body. -/
theorem c7_sky_radiance_above_atmosphere (A : AtmosphereCtx) (camera view_ray : Vec3)
    (shadow_length : ℚ) (sun_direction : Vec3)
    (h : A.top_radius < vecLength A camera) :
    (skyDistanceToTop A camera view_ray ≤ 0 →
        GetSkyRadiance A camera view_ray shadow_length sun_direction = (v3 0, v3 1)) ∧
      (0 < skyDistanceToTop A camera view_ray →
        GetSkyRadiance A camera view_ray shadow_length sun_direction =
          GetSkyRadianceBody A (camera + smul3 (skyDistanceToTop A camera view_ray) view_ray)
            view_ray shadow_length sun_direction A.top_radius
            (dot3 camera view_ray + skyDistanceToTop A camera view_ray)) := by
  unfold GetSkyRadiance skyDistanceToTop
  constructor
  · intro hle
    rw [if_neg (not_lt.mpr hle), if_pos h]
  · intro hpos
    rw [if_pos hpos]

/-- Atmosphere context used to instantiate C7 at a concrete input: the abstract
sqrt is the constant 10, so the camera below has radius 10 above the top radius
5there, and the boundary distance is negative (a miss). -/
def atmoC7 : AtmosphereCtx :=
  { atmoC2 with top_radius := 5, sqrtF := fun _ => 10 }

/-- Witness for C7: a camera above the atmosphere whose view ray misses the top
boundary yields zero radiance and unit transmittance. -/
theorem c7_witness :
    atmoC7.top_radius < vecLength atmoC7 ⟨3, 0, 0⟩ ∧
      skyDistanceToTop atmoC7 ⟨3, 0, 0⟩ ⟨1, 0, 0⟩ ≤ 0 ∧
      GetSkyRadiance atmoC7 ⟨3, 0, 0⟩ ⟨1, 0, 0⟩ 0 ⟨0, 0, 1⟩ = (v3 0, v3 1) :=
  ⟨by norm_num [vecLength, dot3, atmoC7, atmoC2],
    by norm_num [skyDistanceToTop, vecLength, dot3, SafeSqrt, atmoC7, atmoC2],
    (c7_sky_radiance_above_atmosphere atmoC7 ⟨3, 0, 0⟩ ⟨1, 0, 0⟩ 0 ⟨0, 0, 1⟩
        (by norm_num [vecLength, dot3, atmoC7, atmoC2])).1
      (by norm_num [skyDistanceToTop, vecLength, dot3, SafeSqrt, atmoC7, atmoC2])⟩

/-!
Claims about the CascadedShadowMaps state machine.
-/

/-- A CascadedShadowMaps state as left by construction (needsUpdateFrusta is
initialized to true) with four cascaded lights and no allocated maps. -/
def csmC4 : CSMState :=
  { mode := SplitMode.practicalSplit
    lambda := 1
    margin := 200
    far := 100000
    needsUpdateFrusta := true
    lights := List.replicate 4 ⟨2048, 2048, false⟩
    disposeCount := 0
    frustaVersion := 0 }

/-- Counterexample to C4: after construction and one update() call (which
clears the dirty flag), changing split mode, lambda, margin or far to a
different value leaves needsUpdateFrusta false — these are plain fields with no
setter, so only a cascade-count change dirties the frusta. -/
theorem c4_counterexample :
    (update csmC4).needsUpdateFrusta = false ∧
      SplitMode.uniformSplit ≠ csmC4.mode ∧
      (setMode SplitMode.uniformSplit (update csmC4)).needsUpdateFrusta = false ∧
      (2 : ℚ) ≠ csmC4.lambda ∧
      (setLambda 2 (update csmC4)).needsUpdateFrusta = false ∧
      (0 : ℚ) ≠ csmC4.margin ∧
      (setMargin 0 (update csmC4)).needsUpdateFrusta = false ∧
      (1000 : ℚ) ≠ csmC4.far ∧
      (setFar 1000 (update csmC4)).needsUpdateFrusta = false := by
  decide

/-- C4 as amended: needsUpdateFrusta becomes true exactly when the cascade
count is changed to a different value (assigning mode, lambda, margin or far
never touches it), and update() runs the frusta recomputation exactly when the
flag is set and always leaves the flag cleared. -/
theorem c4_amended_dirty_flag (s : CSMState) (v : ℕ) (m : SplitMode) (q : ℚ) :
    (v ≠ cascadeCount s → (setCascadeCount v s).needsUpdateFrusta = true) ∧
      setCascadeCount (cascadeCount s) s = s ∧
      (setMode m s).needsUpdateFrusta = s.needsUpdateFrusta ∧
      (setLambda q s).needsUpdateFrusta = s.needsUpdateFrusta ∧
      (setMargin q s).needsUpdateFrusta = s.needsUpdateFrusta ∧
      (setFar q s).needsUpdateFrusta = s.needsUpdateFrusta ∧
      (update s).frustaVersion =
        (if s.needsUpdateFrusta then s.frustaVersion + 1 else s.frustaVersion) ∧
      (update s).needsUpdateFrusta = false := by
  refine ⟨?_, ?_, rfl, rfl, rfl, rfl, ?_, ?_⟩
  · intro hv
    simp [setCascadeCount, hv]
  · simp [setCascadeCount]
  · by_cases h : s.needsUpdateFrusta <;> simp [update, updateFrusta, h]
  · by_cases h : s.needsUpdateFrusta <;> simp [update, h]

/-- Witness for C4 as amended: a cascade-count change dirties the flag, and
update() bumps the frusta version and clears the flag on the constructed state. -/
theorem c4_witness :
    (setCascadeCount 2 csmC4).needsUpdateFrusta = true ∧
      (update csmC4).frustaVersion = csmC4.frustaVersion + 1 ∧
      (update csmC4).needsUpdateFrusta = false := by
  refine ⟨(c4_amended_dirty_flag csmC4 2 SplitMode.practicalSplit 1).1 (by decide), ?_, ?_⟩
  · have h := (c4_amended_dirty_flag csmC4 2 SplitMode.practicalSplit 1).2.2.2.2.2.2.1
    simpa using h
  · exact (c4_amended_dirty_flag csmC4 2 SplitMode.practicalSplit 1).2.2.2.2.2.2.2

/-- A CascadedShadowMaps state with two cascaded lights whose shadow maps are
allocated and a clean dirty flag. -/
def csmC9 : CSMState :=
  { mode := SplitMode.practicalSplit
    lambda := 1
    margin := 200
    far := 100000
    needsUpdateFrusta := false
    lights := [⟨2048, 2048, true⟩, ⟨2048, 2048, true⟩]
    disposeCount := 0
    frustaVersion := 3 }

/-- Counterexample to C9: setting mapSize to a different value does dispose and
null every allocated shadow map, but it does not set the needsUpdateFrusta
dirty flag (only the cascadeCount setter does). -/
theorem c9_counterexample :
    1024 ≠ mapSize csmC9 ∧
      (setMapSize 1024 csmC9).lights = [⟨1024, 1024, false⟩, ⟨1024, 1024, false⟩] ∧
      (setMapSize 1024 csmC9).disposeCount = csmC9.disposeCount + 2 ∧
      (setMapSize 1024 csmC9).needsUpdateFrusta = false := by
  decide

/-- C9 as amended: a mapSize change to a different value writes the new size
into every cascaded light, disposes each allocated map and nulls its reference,
and modifies nothing else — in particular it leaves needsUpdateFrusta unchanged;
an equal value is a no-op; a cascadeCount change to a different value releases
all prior allocations (spec-modelled setCount) and sets needsUpdateFrusta. -/
theorem c9_amended_invalidation (s : CSMState) (v : ℕ) :
    (v ≠ mapSize s →
        (setMapSize v s).lights = s.lights.map (fun _ => ⟨v, v, false⟩) ∧
          (setMapSize v s).disposeCount =
            s.disposeCount + s.lights.countP (fun l => l.hasMap) ∧
          (setMapSize v s).needsUpdateFrusta = s.needsUpdateFrusta ∧
          (setMapSize v s).mode = s.mode ∧
          (setMapSize v s).lambda = s.lambda ∧
          (setMapSize v s).margin = s.margin ∧
          (setMapSize v s).far = s.far ∧
          (setMapSize v s).frustaVersion = s.frustaVersion) ∧
      setMapSize (mapSize s) s = s ∧
      (v ≠ cascadeCount s →
        (setCascadeCount v s).needsUpdateFrusta = true ∧
          (setCascadeCount v s).lights = List.replicate v ⟨mapSize s, mapSize s, false⟩ ∧
          (setCascadeCount v s).disposeCount =
            s.disposeCount + s.lights.countP (fun l => l.hasMap)) := by
  refine ⟨?_, ?_, ?_⟩
  · intro hv
    simp [setMapSize, hv]
  · simp [setMapSize]
  · intro hv
    simp [setCascadeCount, setCount, hv]

/-- Witness for C9 as amended at the concrete allocated two-light state. -/
theorem c9_witness :
    (setMapSize 1024 csmC9).lights = csmC9.lights.map (fun _ => ⟨1024, 1024, false⟩) ∧
      (setMapSize 1024 csmC9).needsUpdateFrusta = csmC9.needsUpdateFrusta ∧
      (setCascadeCount 3 csmC9).needsUpdateFrusta = true := by
  have h1 := (c9_amended_invalidation csmC9 1024).1 (by decide)
  have h2 := (c9_amended_invalidation csmC9 3).2.2 (by decide)
  exact ⟨h1.1, h1.2.2.1, h2.1⟩

/-- Counterexample to C5: with texel size 1 (left = -512, right = 512,
mapSize = 1024), light-space centers 2/5 and 3/5 differ by a fifth of a texel,
yet they snap to different texels (round gives 0 and 1), so the two update()
calls produce different shadow-camera world positions. -/
theorem c5_counterexample :
    (3 / 5 : ℚ) - 2 / 5 = 1 / 5 ∧
      ((512 : ℚ) - -512) / 1024 = 1 ∧
      (1 / 5 : ℚ) < 1 ∧
      lightPlacement id ⟨0, 0, 1⟩ (-512) 512 512 (-512) 1024 ⟨2 / 5, 0, 7⟩ ≠
        lightPlacement id ⟨0, 0, 1⟩ (-512) 512 512 (-512) 1024 ⟨3 / 5, 0, 7⟩ := by
  refine ⟨by norm_num, by norm_num, by norm_num, ?_⟩
  intro h
  have hx := congrArg (fun p => p.1.x) h
  simp only [lightPlacement, snapToTexel, id] at hx
  norm_num [round_eq] at hx

/-- C5 as amended: the snapped light-space X and Y are always integer multiples
of the per-cascade texel sizes, and two update() calls whose light-space
bounding-box centers fall in the same rounding cell (equal round of
center / texel on both axes, equal Z) produce bit-identical shadow-camera world
positions and targets; a sub-texel translation that crosses a rounding boundary
may move the result by exactly one texel step. -/
theorem c5_amended_texel_snapping (f : Vec3 → Vec3) (dir : Vec3)
    (left right top bottom m : ℚ) (c1 c2 : Vec3)
    (hx : round (c1.x / ((right - left) / m)) = round (c2.x / ((right - left) / m)))
    (hy : round (c1.y / ((top - bottom) / m)) = round (c2.y / ((top - bottom) / m)))
    (hz : c1.z = c2.z) :
    lightPlacement f dir left right top bottom m c1 =
        lightPlacement f dir left right top bottom m c2 ∧
      (∃ kx : ℤ, (snapToTexel left right top bottom m c1).x = kx * ((right - left) / m)) ∧
      (∃ ky : ℤ, (snapToTexel left right top bottom m c1).y = ky * ((top - bottom) / m)) := by
  have hsnap : snapToTexel left right top bottom m c1 = snapToTexel left right top bottom m c2 := by
    simp only [snapToTexel, hx, hy, hz]
  refine ⟨?_, ?_, ?_⟩
  · simp only [lightPlacement, hsnap]
  · exact ⟨round (c1.x / ((right - left) / m)), rfl⟩
  · exact ⟨round (c1.y / ((top - bottom) / m)), rfl⟩

/-- Witness for C5 as amended: two centers a tenth of a texel apart in the
interior of the same rounding cell snap to the same world position. -/
theorem c5_witness :
    lightPlacement id ⟨0, 0, 1⟩ (-512) 512 512 (-512) 1024 ⟨1 / 10, 0, 7⟩ =
      lightPlacement id ⟨0, 0, 1⟩ (-512) 512 512 (-512) 1024 ⟨2 / 10, 0, 7⟩ :=
  (c5_amended_texel_snapping id ⟨0, 0, 1⟩ (-512) 512 512 (-512) 1024 ⟨1 / 10, 0, 7⟩
      ⟨2 / 10, 0, 7⟩ (by norm_num [round_eq]) (by norm_num [round_eq]) rfl).1

/-!
Lemmas about the marchToClouds loop.
-/

/-- The accumulation step of the loop body, as a record update. -/
def accStep (C : CloudsCtx) (stepSize : ℚ) (s : MarchState) : MarchState :=
  { s with
    frontDepth := max s.frontDepth s.rayDistance
    extinctionSum := s.extinctionSum + C.shape s.rayDistance * 5
    maxOpticalDepth := s.maxOpticalDepth + C.shape s.rayDistance * 5 * stepSize
    transmittanceIntegral :=
      s.transmittanceIntegral * C.expF (-(C.shape s.rayDistance * 5 * stepSize))
    sampleCount := s.sampleCount + 1 }

/-- The loop body accumulates exactly when the combined weather, occlusion and
shape conditions hold. -/
theorem marchBody_eq (C : CloudsCtx) (st : ℚ) (s : MarchState) :
    marchBody C st s = if accumulates C s.rayDistance then accStep C st s else s := by
  unfold marchBody accStep accumulates
  rcases Bool.eq_false_or_eq_true
      (anyGT4 (C.weatherDensity s.rayDistance) C.minDensity && !C.occluded s.rayDistance) with
    h1 | h1
  · simp [h1]
  · by_cases h2 : C.shape s.rayDistance > C.minDensity
    · simp [h1, h2]
    · simp [h1, h2]

/-- The recursive-call state of the loop is advanceFull. -/
theorem advanceFull_eq (C : CloudsCtx) (st : ℚ) (s : MarchState) :
    { marchBody C st s with rayDistance := (marchBody C st s).rayDistance + st } =
      advanceFull C st s := rfl

/-- The final frontDepth of a loop run is the fold of max over the accumulated
sample distances, seeded with the incoming frontDepth. -/
theorem marchLoop_frontDepth (C : CloudsCtx) (st mx : ℚ) :
    ∀ (n : ℕ) (s : MarchState),
      ((marchLoop C st mx n s).1).frontDepth =
        (marchLoopDists C st mx n s).foldl max s.frontDepth := by
  intro n
  induction n with
  | zero => intro s; simp [marchLoop, marchLoopDists]
  | succ n ih =>
    intro s
    simp only [marchLoop, marchLoopDists, marchBody_eq]
    by_cases h1 : s.rayDistance > mx
    · simp [h1]
    · simp only [if_neg h1]
      by_cases hacc : accumulates C s.rayDistance = true
      · simp only [hacc, if_true]
        by_cases h2 : (accStep C st s).transmittanceIntegral ≤ C.minTransmittance
        · simp only [h2, if_true]
          simp [accStep]
        · simp only [if_neg h2, List.singleton_append, List.foldl_cons, ih]
          simp [accStep]
      · simp only [Bool.not_eq_true] at hacc
        simp only [hacc, Bool.false_eq_true, if_false, List.nil_append]
        by_cases h2 : s.transmittanceIntegral ≤ C.minTransmittance
        · simp [h2]
        · simp only [if_neg h2, ih]

/-- The final sampleCount of a loop run is the incoming count plus the number
of accumulated sample distances. -/
theorem marchLoop_sampleCount (C : CloudsCtx) (st mx : ℚ) :
    ∀ (n : ℕ) (s : MarchState),
      ((marchLoop C st mx n s).1).sampleCount =
        s.sampleCount + (marchLoopDists C st mx n s).length := by
  intro n
  induction n with
  | zero => intro s; simp [marchLoop, marchLoopDists]
  | succ n ih =>
    intro s
    simp only [marchLoop, marchLoopDists, marchBody_eq]
    by_cases h1 : s.rayDistance > mx
    · simp [h1]
    · simp only [if_neg h1]
      by_cases hacc : accumulates C s.rayDistance = true
      · simp only [hacc, if_true]
        by_cases h2 : (accStep C st s).transmittanceIntegral ≤ C.minTransmittance
        · simp only [h2, if_true]
          simp [accStep]
        · simp only [if_neg h2, List.singleton_append, List.length_cons, ih]
          simp only [accStep]
          omega
      · simp only [Bool.not_eq_true] at hacc
        simp only [hacc, Bool.false_eq_true, if_false, List.nil_append]
        by_cases h2 : s.transmittanceIntegral ≤ C.minTransmittance
        · simp [h2]
        · simp only [if_neg h2, ih]

/-- The extinction sum, max optical depth and frontDepth never decrease along
the loop, given a non-negative step size and a non-negative density field. -/
theorem marchLoop_mono (C : CloudsCtx) (st mx : ℚ) (hst : 0 ≤ st)
    (hshape : ∀ t, 0 ≤ C.shape t) :
    ∀ (n : ℕ) (s : MarchState),
      s.extinctionSum ≤ ((marchLoop C st mx n s).1).extinctionSum ∧
        s.maxOpticalDepth ≤ ((marchLoop C st mx n s).1).maxOpticalDepth ∧
        s.frontDepth ≤ ((marchLoop C st mx n s).1).frontDepth := by
  intro n
  induction n with
  | zero => intro s; simp [marchLoop]
  | succ n ih =>
    intro s
    have hacc5 : 0 ≤ C.shape s.rayDistance * 5 :=
      mul_nonneg (hshape s.rayDistance) (by norm_num)
    simp only [marchLoop, marchBody_eq]
    by_cases h1 : s.rayDistance > mx
    · simp [h1]
    · simp only [if_neg h1]
      by_cases hacc : accumulates C s.rayDistance = true
      · simp only [hacc, if_true]
        by_cases h2 :
            (accStep C st s).transmittanceIntegral ≤ C.minTransmittance
        · simp only [h2, if_true]
          refine ⟨?_, ?_, ?_⟩ <;> simp [accStep]
          · linarith
          · nlinarith
        · simp only [if_neg h2]
          have h3 := ih { accStep C st s with
            rayDistance := (accStep C st s).rayDistance + st }
          refine ⟨le_trans ?_ h3.1, le_trans ?_ h3.2.1, le_trans ?_ h3.2.2⟩ <;>
            simp [accStep]
          · linarith
          · nlinarith
      · simp only [Bool.not_eq_true] at hacc
        simp only [hacc, Bool.false_eq_true, if_false]
        by_cases h2 : s.transmittanceIntegral ≤ C.minTransmittance
        · simp [h2]
        · simp only [if_neg h2]
          have h3 := ih { s with rayDistance := s.rayDistance + st }
          exact ⟨h3.1, h3.2.1, h3.2.2⟩

/-- The frontDepth stays at or below the maximum ray distance: new samples are
only taken while the ray distance has not exceeded it. -/
theorem marchLoop_frontDepth_le (C : CloudsCtx) (st mx : ℚ) :
    ∀ (n : ℕ) (s : MarchState), s.frontDepth ≤ mx →
      ((marchLoop C st mx n s).1).frontDepth ≤ mx := by
  intro n
  induction n with
  | zero => intro s h; simpa [marchLoop] using h
  | succ n ih =>
    intro s h
    simp only [marchLoop, marchBody_eq]
    by_cases h1 : s.rayDistance > mx
    · simpa [h1] using h
    · simp only [if_neg h1]
      have hd : s.rayDistance ≤ mx := not_lt.mp h1
      by_cases hacc : accumulates C s.rayDistance = true
      · simp only [hacc, if_true]
        by_cases h2 :
            (accStep C st s).transmittanceIntegral ≤ C.minTransmittance
        · simp only [h2, if_true]
          simpa [accStep] using max_le h hd
        · simp only [if_neg h2]
          exact ih _ (by simpa [accStep] using max_le h hd)
      · simp only [Bool.not_eq_true] at hacc
        simp only [hacc, Bool.false_eq_true, if_false]
        by_cases h2 : s.transmittanceIntegral ≤ C.minTransmittance
        · simpa [h2] using h
        · simp only [if_neg h2]
          exact ih _ (by simpa using h)

/-- The transmittance integral stays positive and never increases along the
loop: every accumulation multiplies it by an attenuation factor in (0, 1]. -/
theorem marchLoop_trans (C : CloudsCtx) (st mx : ℚ) (hst : 0 ≤ st)
    (hshape : ∀ t, 0 ≤ C.shape t)
    (hexp : ∀ y : ℚ, y ≤ 0 → 0 < C.expF y ∧ C.expF y ≤ 1) :
    ∀ (n : ℕ) (s : MarchState), 0 < s.transmittanceIntegral →
      0 < ((marchLoop C st mx n s).1).transmittanceIntegral ∧
        ((marchLoop C st mx n s).1).transmittanceIntegral ≤ s.transmittanceIntegral := by
  intro n
  induction n with
  | zero => intro s h; simp [marchLoop, h]
  | succ n ih =>
    intro s h
    have harg : -(C.shape s.rayDistance * 5 * st) ≤ 0 :=
      neg_nonpos.mpr (mul_nonneg (mul_nonneg (hshape s.rayDistance) (by norm_num)) hst)
    obtain ⟨he1, he2⟩ := hexp _ harg
    have hpos : 0 < (accStep C st s).transmittanceIntegral := by
      simpa [accStep] using mul_pos h he1
    have hle : (accStep C st s).transmittanceIntegral ≤ s.transmittanceIntegral := by
      simpa [accStep] using
        mul_le_of_le_one_right (le_of_lt h) he2
    simp only [marchLoop, marchBody_eq]
    by_cases h1 : s.rayDistance > mx
    · simp [h1, h]
    · simp only [if_neg h1]
      by_cases hacc : accumulates C s.rayDistance = true
      · simp only [hacc, if_true]
        by_cases h2 : (accStep C st s).transmittanceIntegral ≤ C.minTransmittance
        · simp only [h2, if_true]
          exact ⟨hpos, hle⟩
        · simp only [if_neg h2]
          have h3 := ih { accStep C st s with
            rayDistance := (accStep C st s).rayDistance + st } hpos
          exact ⟨h3.1, le_trans h3.2 hle⟩
      · simp only [Bool.not_eq_true] at hacc
        simp only [hacc, Bool.false_eq_true, if_false]
        by_cases h2 : s.transmittanceIntegral ≤ C.minTransmittance
        · simp only [h2, if_true]
          exact ⟨h, le_refl _⟩
        · simp only [if_neg h2]
          have h3 := ih { s with rayDistance := s.rayDistance + st } h
          exact ⟨h3.1, h3.2⟩

/-- The loop performs at most as many iterations as it has fuel. -/
theorem marchLoop_iters_le (C : CloudsCtx) (st mx : ℚ) :
    ∀ (n : ℕ) (s : MarchState), (marchLoop C st mx n s).2 ≤ n := by
  intro n
  induction n with
  | zero => intro s; simp [marchLoop]
  | succ n ih =>
    intro s
    simp only [marchLoop]
    by_cases h1 : s.rayDistance > mx
    · simp [h1]
    · simp only [if_neg h1]
      by_cases h2 : (marchBody C st s).transmittanceIntegral ≤ C.minTransmittance
      · simp [h2]
      · simp only [if_neg h2]
        exact Nat.succ_le_succ (ih _)

/-- The loop stops before sampling once the ray distance exceeds the maximum. -/
theorem marchLoop_stop_top (C : CloudsCtx) (st mx : ℚ) (n : ℕ) (s : MarchState)
    (h : s.rayDistance > mx) : marchLoop C st mx (n + 1) s = (s, 1) := by
  simp [marchLoop, h]

/-- The loop stops right after the body once the transmittance integral drops
to or below the minimum. -/
theorem marchLoop_stop_transmittance (C : CloudsCtx) (st mx : ℚ) (n : ℕ) (s : MarchState)
    (h1 : ¬s.rayDistance > mx)
    (h2 : (marchBody C st s).transmittanceIntegral ≤ C.minTransmittance) :
    marchLoop C st mx (n + 1) s = (marchBody C st s, 1) := by
  simp [marchLoop, h1, h2]

/-- If the body of the (j+1)-th unconditional iteration saturates the
transmittance at or below the minimum, the loop performs at most j + 1
iterations. -/
theorem marchLoop_sat (C : CloudsCtx) (st mx : ℚ) :
    ∀ (j : ℕ) (s : MarchState) (n : ℕ), j < n →
      (marchBody C st ((advanceFull C st)^[j] s)).transmittanceIntegral ≤
        C.minTransmittance →
      (marchLoop C st mx n s).2 ≤ j + 1 := by
  intro j
  induction j with
  | zero =>
    intro s n hn hsat
    obtain ⟨m, rfl⟩ : ∃ m, n = m + 1 := ⟨n - 1, by omega⟩
    simp only [Function.iterate_zero, id_eq] at hsat
    by_cases h1 : s.rayDistance > mx
    · simp [marchLoop, h1]
    · simp [marchLoop, h1, hsat]
  | succ j ih =>
    intro s n hn hsat
    obtain ⟨m, rfl⟩ : ∃ m, n = m + 1 := ⟨n - 1, by omega⟩
    by_cases h1 : s.rayDistance > mx
    · simp [marchLoop, h1]
    · by_cases h2 : (marchBody C st s).transmittanceIntegral ≤ C.minTransmittance
      · simp [marchLoop, h1, h2]
      · have hnext :
            (marchBody C st
                ((advanceFull C st)^[j] (advanceFull C st s))).transmittanceIntegral ≤
              C.minTransmittance := by
          rw [← Function.iterate_succ_apply]
          exact hsat
        have hrec := ih (advanceFull C st s) m (by omega) hnext
        simp only [marchLoop, if_neg h1, if_neg h2]
        rw [advanceFull_eq]
        omega

/-!
Claims about marchToClouds.
-/

/-- C1 as amended: when no sample contributed the result is exactly
(maxRayDistance, 0, 0, 0); otherwise it is
(frontDepth, extinctionSum / sampleCount, maxOpticalDepth, 1) where frontDepth
is the maximum of 0 and the ray distances at which accumulated samples were
taken (the fold of max seeded with the initial value 0) — equal to the maximum
accumulated-sample distance whenever that maximum is non-negative, but 0 when
every accumulated sample lies at a negative jittered ray distance. -/
theorem c1_march_result_packing (C : CloudsCtx) (rayD st mx jitter : ℚ) :
    ((marchFinal C rayD st mx jitter).sampleCount = 0 →
        marchToClouds C rayD st mx jitter = ⟨mx, 0, 0, 0⟩) ∧
      ((marchFinal C rayD st mx jitter).sampleCount ≠ 0 →
        marchToClouds C rayD st mx jitter =
          ⟨(marchDists C rayD st mx jitter).foldl max 0,
            (marchFinal C rayD st mx jitter).extinctionSum /
              ((marchFinal C rayD st mx jitter).sampleCount : ℚ),
            (marchFinal C rayD st mx jitter).maxOpticalDepth, 1⟩) ∧
      (marchFinal C rayD st mx jitter).frontDepth =
        (marchDists C rayD st mx jitter).foldl max 0 ∧
      (marchFinal C rayD st mx jitter).sampleCount =
        (marchDists C rayD st mx jitter).length := by
  have hfront :=
    marchLoop_frontDepth C st mx C.maxIterations (marchInit (rayD - st * jitter))
  have hcount :=
    marchLoop_sampleCount C st mx C.maxIterations (marchInit (rayD - st * jitter))
  simp only [marchInit] at hfront hcount
  refine ⟨?_, ?_, hfront, by simpa using hcount⟩
  · intro h
    simp only [marchFinal] at h
    simp only [marchToClouds, h, if_true]
  · intro h
    simp only [marchFinal] at h
    simp only [marchToClouds, marchFinal, marchDists, if_neg h]
    exact Vec4.mk.injEq .. ▸ ⟨hfront, rfl, rfl, rfl⟩

/-- Cloud context for the C1 counterexample: everything accumulates, the single
iteration samples at the jittered (negative) start distance. -/
def cloudsC1 : CloudsCtx :=
  { maxIterations := 1
    minDensity := 0
    minTransmittance := 0
    weatherDensity := fun _ => ⟨1, 1, 1, 1⟩
    occluded := fun _ => false
    shape := fun _ => 1
    expF := fun _ => 1 / 2 }

/-- Counterexample to C1 as stated: with jitter 1 and step size 1 the single
accumulated sample lies at ray distance -1, but the returned frontDepth is 0
(its initial value), not the maximum accumulated-sample distance -1. -/
theorem c1_counterexample :
    marchToClouds cloudsC1 0 1 10 1 = ⟨0, 5, 5, 1⟩ ∧
      marchDists cloudsC1 0 1 10 1 = [-1] ∧
      (marchFinal cloudsC1 0 1 10 1).sampleCount = 1 ∧
      (marchToClouds cloudsC1 0 1 10 1).x ≠ -1 := by
  have hmi : cloudsC1.maxIterations = 1 := rfl
  have hbody : ∀ s : MarchState, marchBody cloudsC1 1 s = accStep cloudsC1 1 s := by
    intro s
    rw [marchBody_eq]
    simp [accumulates, anyGT4, cloudsC1]
  have hloop :
      marchLoop cloudsC1 1 10 1 (marchInit (0 - 1 * 1)) =
        ({ accStep cloudsC1 1 (marchInit (0 - 1 * 1)) with
            rayDistance := (accStep cloudsC1 1 (marchInit (0 - 1 * 1))).rayDistance + 1 },
          1) := by
    rw [show (1 : ℕ) = 0 + 1 from rfl, marchLoop]
    rw [if_neg (by norm_num [marchInit])]
    rw [hbody]
    rw [if_neg (by norm_num [accStep, marchInit, cloudsC1])]
    rw [marchLoop]
  have hdists :
      marchLoopDists cloudsC1 1 10 1 (marchInit (0 - 1 * 1)) = [-1] := by
    rw [show (1 : ℕ) = 0 + 1 from rfl, marchLoopDists]
    rw [if_neg (by norm_num [marchInit])]
    rw [hbody]
    rw [if_neg (by norm_num [accStep, marchInit, cloudsC1])]
    rw [marchLoopDists]
    simp [accumulates, anyGT4, cloudsC1, marchInit]
  have hfin :
      marchFinal cloudsC1 0 1 10 1 =
        { rayDistance := 0, extinctionSum := 5, maxOpticalDepth := 5,
          transmittanceIntegral := 1 / 2, frontDepth := 0, sampleCount := 1 } := by
    unfold marchFinal
    rw [hmi, hloop]
    norm_num [accStep, marchInit, cloudsC1, max_def]
  have hout :
      marchToClouds cloudsC1 0 1 10 1 =
        if (marchFinal cloudsC1 0 1 10 1).sampleCount = 0 then (⟨10, 0, 0, 0⟩ : Vec4)
        else
          ⟨(marchFinal cloudsC1 0 1 10 1).frontDepth,
            (marchFinal cloudsC1 0 1 10 1).extinctionSum /
              ((marchFinal cloudsC1 0 1 10 1).sampleCount : ℚ),
            (marchFinal cloudsC1 0 1 10 1).maxOpticalDepth, 1⟩ := rfl
  refine ⟨?_, ?_, ?_, ?_⟩
  · rw [hout, hfin]
    norm_num
  · unfold marchDists
    rw [hmi]
    exact hdists
  · rw [hfin]
  · rw [hout, hfin]
    norm_num

/-- Witness instantiating C1 as amended at a concrete run with no contributing
samples: the packed result is exactly (maxRayDistance, 0, 0, 0). -/
def cloudsC1e : CloudsCtx :=
  { cloudsC1 with weatherDensity := fun _ => ⟨0, 0, 0, 0⟩ }

/-- Witness for C1 as amended: a run whose weather density never exceeds the
threshold contributes no samples and returns (maxRayDistance, 0, 0, 0). -/
theorem c1_witness :
    (marchFinal cloudsC1e 0 1 10 0).sampleCount = 0 ∧
      marchToClouds cloudsC1e 0 1 10 0 = ⟨10, 0, 0, 0⟩ := by
  have hmi : cloudsC1e.maxIterations = 1 := rfl
  have hbody : ∀ s : MarchState, marchBody cloudsC1e 1 s = s := by
    intro s
    rw [marchBody_eq]
    simp [accumulates, anyGT4, cloudsC1e, cloudsC1]
  have hloop :
      marchLoop cloudsC1e 1 10 1 (marchInit (0 - 1 * 0)) =
        ({ marchInit (0 - 1 * 0) with
            rayDistance := (marchInit (0 - 1 * 0)).rayDistance + 1 }, 1) := by
    rw [show (1 : ℕ) = 0 + 1 from rfl, marchLoop]
    rw [if_neg (by norm_num [marchInit])]
    rw [hbody]
    rw [if_neg (by norm_num [marchInit, cloudsC1e, cloudsC1])]
    rw [marchLoop]
  have hzero : (marchFinal cloudsC1e 0 1 10 0).sampleCount = 0 := by
    unfold marchFinal
    rw [hmi, hloop]
    rfl
  exact ⟨hzero, (c1_march_result_packing cloudsC1e 0 1 10 0).1 hzero⟩

/-- C6: the marchToClouds loop always performs at most maxIterations
iterations; it exits before sampling as soon as the ray distance exceeds
maxRayDistance, and right after sampling as soon as the transmittance integral
drops to or below minTransmittance; and if the density field saturates the
transmittance at or below minTransmittance during the body of unconditional
iteration K + 1 with K + 1 ≤ maxIterations, the loop performs at most K + 1
iterations. -/
theorem c6_march_termination (C : CloudsCtx) (rayD st mx jitter : ℚ) :
    marchIters C rayD st mx jitter ≤ C.maxIterations ∧
      (∀ (n : ℕ) (s : MarchState), s.rayDistance > mx →
        marchLoop C st mx (n + 1) s = (s, 1)) ∧
      (∀ (n : ℕ) (s : MarchState), ¬s.rayDistance > mx →
        (marchBody C st s).transmittanceIntegral ≤ C.minTransmittance →
        marchLoop C st mx (n + 1) s = (marchBody C st s, 1)) ∧
      (∀ K : ℕ, K < C.maxIterations →
        (marchBody C st
              ((advanceFull C st)^[K]
                (marchInit (rayD - st * jitter)))).transmittanceIntegral ≤
          C.minTransmittance →
        marchIters C rayD st mx jitter ≤ K + 1) :=
  ⟨marchLoop_iters_le C st mx C.maxIterations (marchInit (rayD - st * jitter)),
    fun n s h => marchLoop_stop_top C st mx n s h,
    fun n s h1 h2 => marchLoop_stop_transmittance C st mx n s h1 h2,
    fun K hK hsat => marchLoop_sat C st mx K (marchInit (rayD - st * jitter))
      C.maxIterations hK hsat⟩

/-- Cloud context for the C6 witness: the first accumulation already drops the
transmittance integral to 1/4, below the 1/2 minimum, with a budget of 3
iterations. -/
def cloudsC6 : CloudsCtx :=
  { maxIterations := 3
    minDensity := 0
    minTransmittance := 1 / 2
    weatherDensity := fun _ => ⟨1, 1, 1, 1⟩
    occluded := fun _ => false
    shape := fun _ => 1
    expF := fun _ => 1 / 4 }

/-- Witness for C6: the saturating density field stops the loop after one
iteration even though three are budgeted. -/
theorem c6_witness :
    marchIters cloudsC6 0 1 100 0 ≤ cloudsC6.maxIterations ∧
      marchIters cloudsC6 0 1 100 0 ≤ 0 + 1 :=
  ⟨(c6_march_termination cloudsC6 0 1 100 0).1,
    (c6_march_termination cloudsC6 0 1 100 0).2.2.2 0 (by norm_num [cloudsC6])
      (by
        rw [Function.iterate_zero, id_eq, marchBody_eq]
        norm_num [accumulates, anyGT4, accStep, marchInit, cloudsC6])⟩

/-- C10: for maxRayDistance ≥ 0, jitter in [0, 1], a non-negative step size and
density field, and an attenuation function mapping non-positive arguments into
(0, 1] (as exp does), the packed frontDepth lies in [0, maxRayDistance], the
packed mean extinction and max optical depth are non-negative, and the
transmittance integral starts at 1, stays positive and never increases along
the loop. -/
theorem c10_march_invariants (C : CloudsCtx) (rayD st mx jitter : ℚ)
    (hmx : 0 ≤ mx) (hst : 0 ≤ st) (hj0 : 0 ≤ jitter) (hj1 : jitter ≤ 1)
    (hshape : ∀ t, 0 ≤ C.shape t)
    (hexp : ∀ y : ℚ, y ≤ 0 → 0 < C.expF y ∧ C.expF y ≤ 1) :
    0 ≤ (marchToClouds C rayD st mx jitter).x ∧
      (marchToClouds C rayD st mx jitter).x ≤ mx ∧
      0 ≤ (marchToClouds C rayD st mx jitter).y ∧
      0 ≤ (marchToClouds C rayD st mx jitter).z ∧
      (marchInit (rayD - st * jitter)).transmittanceIntegral = 1 ∧
      (∀ (n : ℕ) (s : MarchState), 0 < s.transmittanceIntegral →
        0 < ((marchLoop C st mx n s).1).transmittanceIntegral ∧
          ((marchLoop C st mx n s).1).transmittanceIntegral ≤
            s.transmittanceIntegral) := by
  have hmono :=
    marchLoop_mono C st mx hst hshape C.maxIterations (marchInit (rayD - st * jitter))
  have hfle :=
    marchLoop_frontDepth_le C st mx C.maxIterations (marchInit (rayD - st * jitter))
      (by simpa [marchInit] using hmx)
  simp only [marchInit] at hmono hfle
  have hout :
      marchToClouds C rayD st mx jitter =
        if (marchFinal C rayD st mx jitter).sampleCount = 0 then (⟨mx, 0, 0, 0⟩ : Vec4)
        else
          ⟨(marchFinal C rayD st mx jitter).frontDepth,
            (marchFinal C rayD st mx jitter).extinctionSum /
              ((marchFinal C rayD st mx jitter).sampleCount : ℚ),
            (marchFinal C rayD st mx jitter).maxOpticalDepth, 1⟩ := rfl
  refine ⟨?_, ?_, ?_, ?_, rfl,
    fun n s hs => marchLoop_trans C st mx hst hshape hexp n s hs⟩ <;>
    rw [hout]
  · split
    · exact hmx
    · exact le_trans hmono.2.2 (le_refl _)
  · split
    · exact le_refl mx
    · exact hfle
  · split
    · exact le_refl 0
    · exact div_nonneg (le_trans (le_refl _) hmono.1) (Nat.cast_nonneg _)
  · split
    · exact le_refl 0
    · exact hmono.2.1

/-- Cloud context for the C10 witness: constant unit density, attenuation
factor 1/2 everywhere. -/
def cloudsC10 : CloudsCtx :=
  { maxIterations := 2
    minDensity := 0
    minTransmittance := 0
    weatherDensity := fun _ => ⟨1, 1, 1, 1⟩
    occluded := fun _ => false
    shape := fun _ => 1
    expF := fun _ => 1 / 2 }

/-- Witness for C10 at a concrete run. -/
theorem c10_witness :
    0 ≤ (marchToClouds cloudsC10 0 1 10 0).x ∧
      (marchToClouds cloudsC10 0 1 10 0).x ≤ 10 ∧
      0 ≤ (marchToClouds cloudsC10 0 1 10 0).y ∧
      0 ≤ (marchToClouds cloudsC10 0 1 10 0).z := by
  have h := c10_march_invariants cloudsC10 0 1 10 0 (by norm_num) (by norm_num)
    (by norm_num) (by norm_num) (fun t => by norm_num [cloudsC10])
    (fun y hy => by norm_num [cloudsC10])
  exact ⟨h.1, h.2.1, h.2.2.1, h.2.2.2.1⟩

end Geo
